import Mathlib

/-!
Shallow embedding of the HiveMind Copilot VS Code extension
(repository `Hedera-Developer-Copilot`), for checking the natural-language
specification against the code.

Conventions used throughout:
* TypeScript classes with mutable fields become Lean structures passed and
  returned explicitly.
* `throw new Error(msg)` becomes `Except.error msg`; a `try/catch` that
  mutates state and rethrows is modelled by matching on the `Except` value.
* Calls into externally-owned systems (the Hedera SDK, the backend HTTP API,
  `vscode.window.showInputBox`, `JSON.parse`) are modelled by oracle
  parameters supplying their outcomes, and by emitted events recording that
  the call happened.
* `null`/`undefined` fields become `Option`.
-/

namespace HederaSvc

/-- An SDK client handle, as created by `Client.forTestnet()` /
`Client.forMainnet()` (from `@hashgraph/sdk`, external).  We record only
which network the handle was created for. -/
structure Client where
  network : String
deriving DecidableEq, Repr

/-- The mutable fields of `HederaService`
(`src/hivemind-frontend/src/services/hederaService.ts`, lines 19-24). -/
structure HederaState where
  client : Option Client
  accountId : Option String
  privateKey : Option String
  network : String
  connected : Bool
deriving DecidableEq, Repr

/-- The field initialisers of the `HederaService` class. -/
def initialState : HederaState :=
  { client := none, accountId := none, privateKey := none,
    network := "testnet", connected := false }

/-- Externally observable events emitted by `HederaService` methods. -/
inductive HEvent where
  | closeClient
  | createClient (network : String)
  | sdkOp (name : String)
deriving DecidableEq, Repr

/-- The tail of `connect` after a client has been created: `setOperator`
(which may be rejected by the SDK, oracle `setOperatorOk`) followed by the
four field assignments and `return true` (lines 64-72). -/
def connectSetOperator (s : HederaState) (network accountId privateKey : String)
    (setOperatorOk : Bool) : HederaState × Except String Bool :=
  if setOperatorOk then
    ({ s with accountId := some accountId, privateKey := some privateKey,
              network := network, connected := true }, Except.ok true)
  else
    (s, Except.error "setOperator rejected")

/-- The `try` block of `HederaService.connect` (lines 53-72): create a client
for `testnet` or `mainnet`, otherwise throw `Invalid network: ...` before any
field is assigned. -/
def connectTry (s : HederaState) (network accountId privateKey : String)
    (setOperatorOk : Bool) : (HederaState × Except String Bool) × List HEvent :=
  if network = "testnet" then
    (connectSetOperator { s with client := some { network := "testnet" } }
      network accountId privateKey setOperatorOk, [HEvent.createClient "testnet"])
  else if network = "mainnet" then
    (connectSetOperator { s with client := some { network := "mainnet" } }
      network accountId privateKey setOperatorOk, [HEvent.createClient "mainnet"])
  else
    ((s, Except.error (String.append "Invalid network: " network)), [])

/-- Method `HederaService.connect` (lines 52-78).  The `catch` block sets
`this.connected = false` and rethrows. -/
def connect (s : HederaState) (network accountId privateKey : String)
    (setOperatorOk : Bool) : (HederaState × Except String Bool) × List HEvent :=
  match connectTry s network accountId privateKey setOperatorOk with
  | ((s1, Except.ok b), evs) => ((s1, Except.ok b), evs)
  | ((s1, Except.error e), evs) => (({ s1 with connected := false }, Except.error e), evs)

/-- Method `HederaService.disconnect` (lines 83-89): close and null the client if
present, then set `connected` to false. -/
def disconnect (s : HederaState) : HederaState × List HEvent :=
  match s.client with
  | some _ => ({ s with client := none, connected := false }, [HEvent.closeClient])
  | none => ({ s with connected := false }, [])

/-- Method `HederaService.isConnected` (lines 94-96). -/
def isConnected (s : HederaState) : Bool :=
  s.connected && s.client.isSome

/-- The `Not connected to Hedera` guard message used by every operation. -/
def notConnectedMsg : String := "Not connected to Hedera"

/-- Method `HederaService.createTopic` (lines 108-127): guard on a null client, then
execute a `TopicCreateTransaction` whose outcome is the oracle `sdkRes`. -/
def createTopic (s : HederaState) (_memo : String) (sdkRes : Except String String) :
    Except String String × List HEvent :=
  match s.client with
  | none => (Except.error notConnectedMsg, [])
  | some _ => (sdkRes, [HEvent.sdkOp "TopicCreateTransaction"])

/-- Method `HederaService.submitMessage` (lines 132-155). -/
def submitMessage (s : HederaState) (_topicId _message : String)
    (sdkRes : Except String String) : Except String String × List HEvent :=
  match s.client with
  | none => (Except.error notConnectedMsg, [])
  | some _ => (sdkRes, [HEvent.sdkOp "TopicMessageSubmitTransaction"])

/-- Method `HederaService.callContractMethod` (lines 160-192). -/
def callContractMethod (s : HederaState) (_contractId _method : String)
    (_gas : Nat) (sdkRes : Except String String) :
    Except String String × List HEvent :=
  match s.client with
  | none => (Except.error notConnectedMsg, [])
  | some _ => (sdkRes, [HEvent.sdkOp "ContractCallQuery"])

/-- Method `HederaService.getAccountBalance` (lines 197-212): guards on
`!this.client || !this.accountId`. -/
def getAccountBalance (s : HederaState) (sdkRes : Except String String) :
    Except String String × List HEvent :=
  match s.client, s.accountId with
  | none, _ => (Except.error notConnectedMsg, [])
  | some _, none => (Except.error notConnectedMsg, [])
  | some _, some _ => (sdkRes, [HEvent.sdkOp "AccountBalanceQuery"])

/-- Method `HederaService.deployContract` (lines 224-257): guard, then a
`FileCreateTransaction` followed by a `ContractCreateTransaction`. -/
def deployContract (s : HederaState) (_bytecode : String)
    (fileRes : Except String String) (contractRes : Except String String) :
    Except String String × List HEvent :=
  match s.client with
  | none => (Except.error notConnectedMsg, [])
  | some _ =>
    match fileRes with
    | Except.error e => (Except.error e, [HEvent.sdkOp "FileCreateTransaction"])
    | Except.ok _ =>
      (contractRes,
       [HEvent.sdkOp "FileCreateTransaction", HEvent.sdkOp "ContractCreateTransaction"])

/-- Method `HederaService.registerContract` (lines 262-286): guard, then submit the
registration record to the `0.0.registry` topic via `submitMessage`. -/
def registerContract (s : HederaState) (_contractId _metadata : String)
    (sdkRes : Except String String) : Except String String × List HEvent :=
  match s.client with
  | none => (Except.error notConnectedMsg, [])
  | some _ => submitMessage s "0.0.registry" "registrationData" sdkRes

/-- Method `HederaService.getContractInfo` (lines 291-311): guard, then return mock
data without touching the network. -/
def getContractInfo (s : HederaState) (contractId : String) :
    Except String String × List HEvent :=
  match s.client with
  | none => (Except.error notConnectedMsg, [])
  | some _ => (Except.ok (String.append "Contract " contractId), [])

/-- Method `HederaService.getDeployedContracts` (lines 316-342): guard, then return
mock data. -/
def getDeployedContracts (s : HederaState) :
    Except String (List String) × List HEvent :=
  match s.client with
  | none => (Except.error notConnectedMsg, [])
  | some _ => (Except.ok ["0.0.contract1", "0.0.contract2"], [])

/-- Method `HederaService.useAgent` (lines 347-365): guard, then return a mock
response. -/
def useAgent (s : HederaState) (agentId prompt : String) :
    Except String String × List HEvent :=
  match s.client with
  | none => (Except.error notConnectedMsg, [])
  | some _ =>
    (Except.ok (String.append (String.append (String.append "Agent " agentId)
      " processed: ") prompt), [])

/-- Method `HederaService.getAgents` (lines 385-412): guard, then return the mock
agent list. -/
def getAgents (s : HederaState) : Except String (List String) × List HEvent :=
  match s.client with
  | none => (Except.error notConnectedMsg, [])
  | some _ => (Except.ok ["0.0.12345", "0.0.12346", "0.0.12347"], [])

/-- The `Disconnected` state of the spec's connection state machine: no
client handle and the `connected` flag down (the initial state). -/
def Disconnected (s : HederaState) : Prop :=
  s.client = none ∧ s.connected = false

end HederaSvc

def charToLower (c : Char) : Char :=
  if 'A' ≤ c ∧ c ≤ 'Z' then Char.ofNat (c.toNat + 32) else c

def toLowerCase (s : String) : String := String.mk (s.data.map charToLower)

namespace TransactionCenter

/-- A Transaction record
(`src/hivemind-frontend/src/views/TransactionCenter.ts`). -/
structure Transaction where
  id : String
  type : String
  timestamp : Nat
  status : String
  details : String
deriving DecidableEq, Repr

/-- The effect of `TransactionCenterProvider.refresh` (lines 15-21) on the
transaction list: prepend `newTransactions` when nonempty (the tree-change
event it also fires does not touch the list). -/
def refresh (transactions newTransactions : List Transaction) : List Transaction :=
  if newTransactions.length > 0 then newTransactions ++ transactions else transactions

/-- Method `TransactionCenterProvider.addTransaction` (lines 122-125):
`this.transactions.unshift(transaction)` followed by `this.refresh()`, the
latter called with its default empty argument. -/
def addTransaction (transactions : List Transaction) (transaction : Transaction) :
    List Transaction :=
  refresh (transaction :: transactions) []

end TransactionCenter

namespace Panels

/-- The data an Audit Dashboard webview's HTML is rendered from by
`_getHtmlForWebview` (part_008 lines 185-235); we identify the rendered
document by this payload. -/
structure AuditResult where
  staticAnalysis : List String
  aiAnalysis : String
deriving DecidableEq, Repr

/-- An `AgentHubPanel` instance (part_005). -/
structure AgentHubPanel where
  panelId : Nat
deriving DecidableEq, Repr

/-- An `AuditDashboardPanel` instance (part_008): the underlying webview
panel plus the audit result its HTML is currently rendered from. -/
structure AuditDashboardPanel where
  panelId : Nat
  auditResult : AuditResult
deriving DecidableEq, Repr

/-- Host-visible panel operations. -/
inductive PEvent where
  | createWebviewPanel (id : Nat)
  | reveal (id : Nat)
  | setHtml (id : Nat)
deriving DecidableEq, Repr

/-- Panel method `AgentHubPanel.createOrShow` (part_005 lines 132-166): if
`currentPanel` is set, reveal it and return; otherwise create a webview
panel (whose constructor sets its HTML) and store it in `currentPanel`. -/
def agentHubCreateOrShow (currentPanel : Option AgentHubPanel) (freshId : Nat) :
    Option AgentHubPanel × List PEvent :=
  match currentPanel with
  | some p => (some p, [PEvent.reveal p.panelId])
  | none =>
    (some { panelId := freshId },
     [PEvent.createWebviewPanel freshId, PEvent.setHtml freshId])

/-- Panel method `AuditDashboardPanel.createOrShow` (part_008 lines 123-163): if
`currentPanel` is set, reveal it and re-render its HTML from the new audit
result; otherwise create a new panel rendered from the audit result. -/
def auditDashboardCreateOrShow (currentPanel : Option AuditDashboardPanel)
    (freshId : Nat) (auditResult : AuditResult) :
    Option AuditDashboardPanel × List PEvent :=
  match currentPanel with
  | some p =>
    (some { p with auditResult := auditResult },
     [PEvent.reveal p.panelId, PEvent.setHtml p.panelId])
  | none =>
    (some { panelId := freshId, auditResult := auditResult },
     [PEvent.createWebviewPanel freshId, PEvent.setHtml freshId])

end Panels

namespace Api

/-- An axios rejection as observed by the `ApiService` response
interceptor: the optional chain `error?.response?.data?.detail` collapsed
to an optional string (absent whenever any link of the chain is absent),
and `error.message`. -/
structure ApiError where
  responseDetail : Option String
  message : Option String
deriving DecidableEq, Repr

/-- JavaScript `a || b` for an optional string `a` against fallback `b`:
an absent or empty string is falsy. -/
def jsOrString (a : Option String) (b : String) : String :=
  match a with
  | none => b
  | some s => if s = "" then b else s

/-- The rejection value built by the `ApiService` response interceptor
(part_001 lines 256-262):
`error?.response?.data?.detail || error.message || 'Unknown error'`. -/
def interceptorReject (e : ApiError) : String :=
  jsOrString e.responseDetail (jsOrString e.message "Unknown error")

/-- The claim C7 in its own words: the response body's `detail` field when
present, otherwise the underlying error's message, otherwise
`Unknown error`. -/
def claimReject (e : ApiError) : String :=
  match e.responseDetail with
  | some d => d
  | none =>
    match e.message with
    | some m => m
    | none => "Unknown error"

/-- The amended claim in its own words: `detail` when present and
non-empty, otherwise the message when present and non-empty, otherwise
`Unknown error`. -/
def claimRejectAmended (e : ApiError) : String :=
  match e.responseDetail with
  | some d =>
    if d ≠ "" then d
    else
      match e.message with
      | some m => if m ≠ "" then m else "Unknown error"
      | none => "Unknown error"
  | none =>
    match e.message with
    | some m => if m ≠ "" then m else "Unknown error"
    | none => "Unknown error"

end Api

namespace AuditDash

structure Vulnerability where
  id : String
  title : String
  description : String
  severity : String
deriving DecidableEq, Repr

structure AuditTreeItem where
  label : String
  description : String
  contextValue : Option String
deriving DecidableEq, Repr

def severities : List String := ["Critical", "High", "Medium", "Low", "Informational"]

def vulnsForSeverity (vulnerabilities : List Vulnerability) (severity : String) :
    List Vulnerability :=
  vulnerabilities.filter (fun v => toLowerCase v.severity == toLowerCase severity)

def severityGroupItem (severity : String) (n : Nat) : AuditTreeItem :=
  { label := severity ++ " (" ++ toString n ++ ")",
    description := toString n ++ " " ++ toLowerCase severity ++ " severity issues",
    contextValue := some ("severity-" ++ toLowerCase severity) }

def noVulnerabilitiesItem : AuditTreeItem :=
  { label := "No Vulnerabilities Found",
    description := "Run an audit to check for vulnerabilities",
    contextValue := none }

def getChildrenRoot (vulnerabilities : List Vulnerability) : List AuditTreeItem :=
  if vulnerabilities.length = 0 then
    [noVulnerabilitiesItem]
  else
    (severities.map (fun severity =>
      if (vulnsForSeverity vulnerabilities severity).length = 0 then none
      else some (severityGroupItem severity
        (vulnsForSeverity vulnerabilities severity).length))).reduceOption

end AuditDash

namespace SolidityAudit

def jsWhitespace (c : Char) : Bool :=
  c = ' ' ∨ c = '\t' ∨ c = '\n' ∨ c = '\r' ∨ c = '\x0B' ∨ c = '\x0C'
    ∨ c = ' ' ∨ c = '﻿'

def digitsToNat (ds : List Char) : Nat :=
  ds.foldl (fun acc c => acc * 10 + (c.toNat - '0'.toNat)) 0

def matchLineKeyword (cs : List Char) : Option (List Char) :=
  match cs with
  | c1 :: c2 :: c3 :: c4 :: rest =>
    if charToLower c1 = 'l' ∧ charToLower c2 = 'i' ∧ charToLower c3 = 'n'
        ∧ charToLower c4 = 'e' then
      match rest with
      | c5 :: rest2 => if charToLower c5 = 's' then some rest2 else some rest
      | [] => some rest
    else none
  | _ => none

def matchLineTokenAt (cs : List Char) : Option (Nat × Option Nat) :=
  match matchLineKeyword cs with
  | none => none
  | some rest =>
    if (rest.takeWhile jsWhitespace).isEmpty then none
    else
      let rest1 := rest.dropWhile jsWhitespace
      let ds := rest1.takeWhile Char.isDigit
      if ds.isEmpty then none
      else
        let n := digitsToNat ds
        match rest1.dropWhile Char.isDigit with
        | '-' :: rest3 =>
          let ds2 := rest3.takeWhile Char.isDigit
          if ds2.isEmpty then some (n, none) else some (n, some (digitsToNat ds2))
        | _ => some (n, none)

def findLineMatch : List Char → Option (Nat × Option Nat)
  | [] => none
  | c :: cs =>
    match matchLineTokenAt (c :: cs) with
    | some r => some r
    | none => findLineMatch cs

def vulnLocationMatch (location : Option String) : Option (Nat × Option Nat) :=
  match location with
  | none => none
  | some s => findLineMatch s.data

structure AuditVuln where
  title : String
  description : String
  severity : String
  location : Option String
deriving DecidableEq, Repr

inductive DiagnosticSeverity where
  | error
  | warning
  | information
  | hint
deriving DecidableEq, Repr

def getSeverity (severity : String) : DiagnosticSeverity :=
  if toLowerCase severity = "critical" then DiagnosticSeverity.error
  else if toLowerCase severity = "high" then DiagnosticSeverity.error
  else if toLowerCase severity = "medium" then DiagnosticSeverity.warning
  else if toLowerCase severity = "low" then DiagnosticSeverity.information
  else DiagnosticSeverity.hint

structure Diagnostic where
  startLine : Int
  endLine : Int
  message : String
  severity : DiagnosticSeverity
  source : String
  code : String
deriving DecidableEq, Repr

def diagnosticFor (vuln : AuditVuln) : Option Diagnostic :=
  match vulnLocationMatch vuln.location with
  | none => none
  | some (n, m) =>
    let startLine : Int := (n : Int) - 1
    let endLine : Int :=
      match m with
      | some k => (k : Int) - 1
      | none => startLine
    some { startLine := startLine, endLine := endLine,
           message := vuln.description, severity := getSeverity vuln.severity,
           source := "HiveMind Audit", code := vuln.title }

def updateDiagnostics (staticAnalysis : List AuditVuln) : List Diagnostic :=
  staticAnalysis.filterMap diagnosticFor

end SolidityAudit

namespace Deployment

inductive ParamValue where
  | str (s : String)
  | boolean (b : Bool)
  | jsonArray (source : String)
deriving DecidableEq, Repr

structure AbiInput where
  name : String
  type : String
deriving DecidableEq, Repr

structure AbiItem where
  type : String
  name : String
  inputs : List AbiInput
  stateMutability : String
deriving DecidableEq, Repr

structure CompilationResult where
  success : Bool
  error : String
  abi : List AbiItem
  bytecode : String
deriving DecidableEq, Repr

inductive DEvent where
  | compileCall
  | promptShown (name : String) (type : String)
  | deployCall
  | registerCall
  | contractInfoCall
  | callMethodCall
  | infoMessage (msg : String)
  | addTransactionCmd
  | errorMessage (msg : String)
deriving DecidableEq, Repr

def strStartsWith (s pat : String) : Bool :=
  s.data.take pat.data.length == pat.data

def strEndsWith (s pat : String) : Bool :=
  s.data.drop (s.data.length - pat.data.length) == pat.data

def convertParam (jsonParse : String → Option ParamValue) (param : String)
    (type : String) : Except String ParamValue :=
  if strStartsWith type "uint" || strStartsWith type "int" then
    Except.ok (ParamValue.str param)
  else if type = "bool" then
    Except.ok (ParamValue.boolean (toLowerCase param = "true"))
  else if type = "address" then Except.ok (ParamValue.str param)
  else if type = "string" then Except.ok (ParamValue.str param)
  else if strStartsWith type "bytes" then Except.ok (ParamValue.str param)
  else if strEndsWith type "[]" then
    match jsonParse param with
    | some v => Except.ok v
    | none => Except.error ("Invalid array format for parameter of type " ++ type)
  else Except.ok (ParamValue.str param)

def promptForInputs (cancelMsg : String) (jsonParse : String → Option ParamValue) :
    List AbiInput → List (Option String) → Except String (List ParamValue) × List DEvent
  | [], _ => (Except.ok [], [])
  | input :: rest, answers =>
    match answers.headD none with
    | none => (Except.error cancelMsg, [DEvent.promptShown input.name input.type])
    | some param =>
      match convertParam jsonParse param input.type with
      | Except.error e => (Except.error e, [DEvent.promptShown input.name input.type])
      | Except.ok v =>
        match promptForInputs cancelMsg jsonParse rest answers.tail with
        | (Except.ok vs, evs) =>
          (Except.ok (v :: vs), DEvent.promptShown input.name input.type :: evs)
        | (Except.error e, evs) =>
          (Except.error e, DEvent.promptShown input.name input.type :: evs)

def getConstructorParams (abi : List AbiItem) (answers : List (Option String))
    (jsonParse : String → Option ParamValue) :
    Except String (List ParamValue) × List DEvent :=
  match abi.find? (fun item => item.type == "constructor") with
  | none => (Except.ok [], [])
  | some ctor =>
    if ctor.inputs.length = 0 then (Except.ok [], [])
    else promptForInputs "Deployment cancelled" jsonParse ctor.inputs answers

def getMethodParams (method : AbiItem) (answers : List (Option String))
    (jsonParse : String → Option ParamValue) :
    Except String (List ParamValue) × List DEvent :=
  if method.inputs.length = 0 then (Except.ok [], [])
  else promptForInputs "Method call cancelled" jsonParse method.inputs answers

structure DeployOracles where
  fileExists : Bool
  isSolidityFile : Bool
  compileResult : Except String CompilationResult
  answers : List (Option String)
  jsonParse : String → Option ParamValue
  deployResult : Except String String
  contractName : String
  registerResult : Except String String

def deployContractTry (filePath : String) (o : DeployOracles) :
    Except String String × List DEvent :=
  if o.fileExists = false then
    (Except.error ("File not found: " ++ filePath), [])
  else if o.isSolidityFile = false then
    (Except.error "Only Solidity files can be deployed", [])
  else
    match o.compileResult with
    | Except.error e => (Except.error e, [DEvent.compileCall])
    | Except.ok compilationResult =>
      if compilationResult.success = false then
        (Except.error ("Compilation failed: " ++ compilationResult.error),
         [DEvent.compileCall])
      else
        match getConstructorParams compilationResult.abi o.answers o.jsonParse with
        | (Except.error e, pevs) => (Except.error e, DEvent.compileCall :: pevs)
        | (Except.ok _constructorParams, pevs) =>
          match o.deployResult with
          | Except.error e =>
            (Except.error e, DEvent.compileCall :: pevs ++ [DEvent.deployCall])
          | Except.ok contractId =>
            match o.registerResult with
            | Except.error e =>
              (Except.error e,
               DEvent.compileCall :: pevs ++ [DEvent.deployCall, DEvent.registerCall])
            | Except.ok _ =>
              (Except.ok contractId,
               DEvent.compileCall :: pevs ++
                 [DEvent.deployCall, DEvent.registerCall,
                  DEvent.infoMessage
                    ("Contract deployed successfully! Contract ID: " ++ contractId),
                  DEvent.addTransactionCmd])

def deployContract (filePath : String) (o : DeployOracles) :
    Except String String × List DEvent :=
  match deployContractTry filePath o with
  | (Except.ok r, evs) => (Except.ok r, evs)
  | (Except.error e, evs) =>
    (Except.error e, evs ++ [DEvent.errorMessage ("Failed to deploy contract: " ++ e)])

structure ContractInfo where
  abi : Option (List AbiItem)
deriving Repr

structure CallOracles where
  contractInfoResult : Except String (Option ContractInfo)
  answers : List (Option String)
  jsonParse : String → Option ParamValue
  callResult : Except String String

def callContractMethodTry (contractId methodName : String) (o : CallOracles) :
    Except String String × List DEvent :=
  match o.contractInfoResult with
  | Except.error e => (Except.error e, [DEvent.contractInfoCall])
  | Except.ok none =>
    (Except.error ("Contract " ++ contractId ++ " not found or ABI not available"),
     [DEvent.contractInfoCall])
  | Except.ok (some contractInfo) =>
    match contractInfo.abi with
    | none =>
      (Except.error ("Contract " ++ contractId ++ " not found or ABI not available"),
       [DEvent.contractInfoCall])
    | some abi =>
      match abi.find? (fun item => item.type == "function" && item.name == methodName) with
      | none =>
        (Except.error ("Method " ++ methodName ++ " not found in contract ABI"),
         [DEvent.contractInfoCall])
      | some method =>
        match getMethodParams method o.answers o.jsonParse with
        | (Except.error e, pevs) => (Except.error e, DEvent.contractInfoCall :: pevs)
        | (Except.ok _params, pevs) =>
          let isReadOnly :=
            method.stateMutability == "view" || method.stateMutability == "pure"
          match o.callResult with
          | Except.error e =>
            (Except.error e, DEvent.contractInfoCall :: pevs ++ [DEvent.callMethodCall])
          | Except.ok result =>
            if isReadOnly then
              (Except.ok result,
               DEvent.contractInfoCall :: pevs ++
                 [DEvent.callMethodCall,
                  DEvent.infoMessage
                    ("Contract method " ++ methodName ++ " called successfully!")])
            else
              (Except.ok result,
               DEvent.contractInfoCall :: pevs ++
                 [DEvent.callMethodCall,
                  DEvent.infoMessage
                    ("Contract method " ++ methodName ++ " executed successfully!"),
                  DEvent.addTransactionCmd])

def callContractMethod (contractId methodName : String) (o : CallOracles) :
    Except String String × List DEvent :=
  match callContractMethodTry contractId methodName o with
  | (Except.ok r, evs) => (Except.ok r, evs)
  | (Except.error e, evs) =>
    (Except.error e,
     evs ++ [DEvent.errorMessage ("Failed to call contract method: " ++ e)])

def eventBefore (e1 e2 : DEvent) (evs : List DEvent) : Prop :=
  ∃ i : Fin evs.length, ∃ j : Fin evs.length,
    i < j ∧ evs.get i = e1 ∧ evs.get j = e2

instance (e1 e2 : DEvent) (evs : List DEvent) : Decidable (eventBefore e1 e2 evs) := by
  unfold eventBefore; infer_instance

end Deployment

lemma countP_reduceOption_groups (vulns : List AuditDash.Vulnerability) (key : String) :
    ∀ (l : List String),
    ((l.map (fun severity =>
        if (AuditDash.vulnsForSeverity vulns severity).length = 0 then none
        else some (AuditDash.severityGroupItem severity
          (AuditDash.vulnsForSeverity vulns severity).length))).reduceOption).countP
      (fun item => decide (item.contextValue = some key))
    = l.countP (fun severity =>
        decide ("severity-" ++ toLowerCase severity = key)
        && !((AuditDash.vulnsForSeverity vulns severity).length == 0))
  | [] => rfl
  | s :: l => by
    by_cases h : (AuditDash.vulnsForSeverity vulns s).length = 0
    · rw [List.map_cons, if_pos h, List.reduceOption_cons_of_none,
        countP_reduceOption_groups vulns key l, List.countP_cons]
      simp [h]
    · rw [List.map_cons, if_neg h, List.reduceOption_cons_of_some,
        List.countP_cons, countP_reduceOption_groups vulns key l, List.countP_cons]
      simp [h, AuditDash.severityGroupItem]

lemma mem_reduceOption_groups (vulns : List AuditDash.Vulnerability)
    (l : List String) (item : AuditDash.AuditTreeItem) :
    item ∈ ((l.map (fun severity =>
        if (AuditDash.vulnsForSeverity vulns severity).length = 0 then none
        else some (AuditDash.severityGroupItem severity
          (AuditDash.vulnsForSeverity vulns severity).length))).reduceOption) ↔
    ∃ s ∈ l, (AuditDash.vulnsForSeverity vulns s).length ≠ 0 ∧
      item = AuditDash.severityGroupItem s (AuditDash.vulnsForSeverity vulns s).length := by
  rw [List.reduceOption_mem_iff, List.mem_map]
  constructor
  · rintro ⟨s, hs, hfs⟩
    by_cases h : (AuditDash.vulnsForSeverity vulns s).length = 0
    · simp [h] at hfs
    · rw [if_neg h] at hfs
      exact ⟨s, hs, h, (Option.some.injEq _ _ ▸ hfs).symm⟩
  · rintro ⟨s, hs, h, rfl⟩
    exact ⟨s, hs, by rw [if_neg h]⟩

lemma promptForInputs_events_are_prompts (cancelMsg : String)
    (jsonParse : String → Option Deployment.ParamValue) :
    ∀ (inputs : List Deployment.AbiInput) (answers : List (Option String))
      (ev : Deployment.DEvent),
      ev ∈ (Deployment.promptForInputs cancelMsg jsonParse inputs answers).2 →
      ∃ nm ty, ev = Deployment.DEvent.promptShown nm ty
  | [], answers, ev => by
    simp [Deployment.promptForInputs]
  | input :: rest, answers, ev => by
    intro hmem
    rw [Deployment.promptForInputs] at hmem
    split at hmem
    · simp at hmem
      exact ⟨input.name, input.type, hmem⟩
    · split at hmem
      · simp at hmem
        exact ⟨input.name, input.type, hmem⟩
      · split at hmem
        case _ vs evs hrec =>
          simp at hmem
          rcases hmem with rfl | hmem
          · exact ⟨input.name, input.type, rfl⟩
          · exact promptForInputs_events_are_prompts cancelMsg jsonParse rest
              answers.tail ev (by rw [hrec]; exact hmem)
        case _ e evs hrec =>
          simp at hmem
          rcases hmem with rfl | hmem
          · exact ⟨input.name, input.type, rfl⟩
          · exact promptForInputs_events_are_prompts cancelMsg jsonParse rest
              answers.tail ev (by rw [hrec]; exact hmem)

lemma getConstructorParams_events_are_prompts (abi : List Deployment.AbiItem)
    (answers : List (Option String))
    (jsonParse : String → Option Deployment.ParamValue) (ev : Deployment.DEvent) :
    ev ∈ (Deployment.getConstructorParams abi answers jsonParse).2 →
    ∃ nm ty, ev = Deployment.DEvent.promptShown nm ty := by
  rw [Deployment.getConstructorParams]
  cases habi : abi.find? (fun item => item.type == "constructor") with
  | none => simp
  | some ctor =>
    by_cases h : ctor.inputs.length = 0
    · simp [h]
    · simp only [h, if_false]
      exact promptForInputs_events_are_prompts "Deployment cancelled" jsonParse
        ctor.inputs answers ev

lemma getMethodParams_events_are_prompts (method : Deployment.AbiItem)
    (answers : List (Option String))
    (jsonParse : String → Option Deployment.ParamValue) (ev : Deployment.DEvent) :
    ev ∈ (Deployment.getMethodParams method answers jsonParse).2 →
    ∃ nm ty, ev = Deployment.DEvent.promptShown nm ty := by
  rw [Deployment.getMethodParams]
  by_cases h : method.inputs.length = 0
  · simp [h]
  · simp only [h, if_false]
    exact promptForInputs_events_are_prompts "Method call cancelled" jsonParse
      method.inputs answers ev

/-- C1: `HederaService.connect` with a network outside {testnet, mainnet}
always throws `Invalid network: ...`, and when invoked from the Disconnected
state the state is left exactly as it was (client still null, accountId,
privateKey and network unchanged, `isConnected()` still false, still
Disconnected). -/
theorem connect_invalid_network_fails_closed
    (s : HederaSvc.HederaState) (network accountId privateKey : String)
    (setOperatorOk : Bool)
    (hnet1 : network ≠ "testnet") (hnet2 : network ≠ "mainnet") :
    (HederaSvc.connect s network accountId privateKey setOperatorOk).1.2
      = Except.error (String.append "Invalid network: " network)
    ∧ (HederaSvc.Disconnected s →
        (HederaSvc.connect s network accountId privateKey setOperatorOk).1.1 = s
        ∧ HederaSvc.isConnected
            (HederaSvc.connect s network accountId privateKey setOperatorOk).1.1 = false
        ∧ HederaSvc.Disconnected
            (HederaSvc.connect s network accountId privateKey setOperatorOk).1.1) := by
  obtain ⟨client, accountId0, privateKey0, network0, connected0⟩ := s
  refine ⟨?_, ?_⟩
  · simp [HederaSvc.connect, HederaSvc.connectTry, hnet1, hnet2]
  · rintro ⟨hc, hconn⟩
    simp only [HederaSvc.HederaState.mk.injEq] at hc hconn ⊢
    subst hc; subst hconn
    simp [HederaSvc.connect, HederaSvc.connectTry, HederaSvc.isConnected,
      HederaSvc.Disconnected, hnet1, hnet2]

/-- Witness for C1 at the initial state with network `previewnet`. -/
theorem connect_invalid_network_fails_closed_witness :
    (HederaSvc.connect HederaSvc.initialState "previewnet" "0.0.2" "key" true).1.2
      = Except.error (String.append "Invalid network: " "previewnet")
    ∧ (HederaSvc.connect HederaSvc.initialState "previewnet" "0.0.2" "key" true).1.1
      = HederaSvc.initialState := by
  have h := connect_invalid_network_fails_closed HederaSvc.initialState
    "previewnet" "0.0.2" "key" true (by decide) (by decide)
  exact ⟨h.1, (h.2 ⟨rfl, rfl⟩).1⟩

/-- C2: immediately after `disconnect()` (and hence as long as no successful
`connect` has run since, the operations themselves never mutating the
service state), every blockchain operation of `HederaService` — createTopic,
submitMessage, callContractMethod, getAccountBalance, deployContract,
registerContract, getContractInfo, getDeployedContracts, useAgent,
getAgents — throws `Not connected to Hedera` for all arguments, performing
no SDK work (no events emitted). -/
theorem operations_after_disconnect_not_connected :
    ∀ (s : HederaSvc.HederaState)
      (memo topicId message contractId method metadata agentId prompt bytecode : String)
      (gas : Nat) (o1 o2 o3 o4 o5 o6 o7 : Except String String),
      HederaSvc.createTopic (HederaSvc.disconnect s).1 memo o1
        = (Except.error HederaSvc.notConnectedMsg, [])
      ∧ HederaSvc.submitMessage (HederaSvc.disconnect s).1 topicId message o2
        = (Except.error HederaSvc.notConnectedMsg, [])
      ∧ HederaSvc.callContractMethod (HederaSvc.disconnect s).1 contractId method gas o3
        = (Except.error HederaSvc.notConnectedMsg, [])
      ∧ HederaSvc.getAccountBalance (HederaSvc.disconnect s).1 o4
        = (Except.error HederaSvc.notConnectedMsg, [])
      ∧ HederaSvc.deployContract (HederaSvc.disconnect s).1 bytecode o5 o6
        = (Except.error HederaSvc.notConnectedMsg, [])
      ∧ HederaSvc.registerContract (HederaSvc.disconnect s).1 contractId metadata o7
        = (Except.error HederaSvc.notConnectedMsg, [])
      ∧ HederaSvc.getContractInfo (HederaSvc.disconnect s).1 contractId
        = (Except.error HederaSvc.notConnectedMsg, [])
      ∧ HederaSvc.getDeployedContracts (HederaSvc.disconnect s).1
        = (Except.error HederaSvc.notConnectedMsg, [])
      ∧ HederaSvc.useAgent (HederaSvc.disconnect s).1 agentId prompt
        = (Except.error HederaSvc.notConnectedMsg, [])
      ∧ HederaSvc.getAgents (HederaSvc.disconnect s).1
        = (Except.error HederaSvc.notConnectedMsg, []) := by
  intro s memo topicId message contractId method metadata agentId prompt bytecode
    gas o1 o2 o3 o4 o5 o6 o7
  have hclient : (HederaSvc.disconnect s).1.client = none := by
    cases h : s.client <;> simp [HederaSvc.disconnect, h]
  refine ⟨?_, ?_, ?_, ?_, ?_, ?_, ?_, ?_, ?_, ?_⟩ <;>
    simp [HederaSvc.createTopic, HederaSvc.submitMessage,
      HederaSvc.callContractMethod, HederaSvc.getAccountBalance,
      HederaSvc.deployContract, HederaSvc.registerContract,
      HederaSvc.getContractInfo, HederaSvc.getDeployedContracts,
      HederaSvc.useAgent, HederaSvc.getAgents, hclient]

/-- C10: after a successful connect and then a connect with an invalid
network name (which throws), the previous client handle is neither cleared
nor closed, `isConnected()` is false, and the handle-only operations
(createTopic, submitMessage, deployContract) do not raise
`Not connected to Hedera` but proceed to do SDK work against the stale
handle. -/
theorem stale_handle_after_failed_reconnect
    (s : HederaSvc.HederaState)
    (accountId privateKey network2 accountId2 privateKey2 : String) (ok2 : Bool)
    (memo topicId message bytecode : String)
    (o1 o2 o4 : Except String String)
    (hnet1 : network2 ≠ "testnet") (hnet2 : network2 ≠ "mainnet") :
    (HederaSvc.connect
        (HederaSvc.connect s "testnet" accountId privateKey true).1.1
        network2 accountId2 privateKey2 ok2).1.2
      = Except.error (String.append "Invalid network: " network2)
    ∧ (HederaSvc.connect
        (HederaSvc.connect s "testnet" accountId privateKey true).1.1
        network2 accountId2 privateKey2 ok2).1.1.client
      = some { network := "testnet" }
    ∧ HederaSvc.HEvent.closeClient ∉
        (HederaSvc.connect
          (HederaSvc.connect s "testnet" accountId privateKey true).1.1
          network2 accountId2 privateKey2 ok2).2
    ∧ HederaSvc.isConnected
        (HederaSvc.connect
          (HederaSvc.connect s "testnet" accountId privateKey true).1.1
          network2 accountId2 privateKey2 ok2).1.1 = false
    ∧ HederaSvc.createTopic
        (HederaSvc.connect
          (HederaSvc.connect s "testnet" accountId privateKey true).1.1
          network2 accountId2 privateKey2 ok2).1.1 memo o1
      = (o1, [HederaSvc.HEvent.sdkOp "TopicCreateTransaction"])
    ∧ HederaSvc.submitMessage
        (HederaSvc.connect
          (HederaSvc.connect s "testnet" accountId privateKey true).1.1
          network2 accountId2 privateKey2 ok2).1.1 topicId message o2
      = (o2, [HederaSvc.HEvent.sdkOp "TopicMessageSubmitTransaction"])
    ∧ HederaSvc.deployContract
        (HederaSvc.connect
          (HederaSvc.connect s "testnet" accountId privateKey true).1.1
          network2 accountId2 privateKey2 ok2).1.1 bytecode (Except.ok "0.0.file") o4
      = (o4, [HederaSvc.HEvent.sdkOp "FileCreateTransaction",
              HederaSvc.HEvent.sdkOp "ContractCreateTransaction"]) := by
  simp [HederaSvc.connect, HederaSvc.connectTry, HederaSvc.connectSetOperator,
    HederaSvc.isConnected, HederaSvc.createTopic, HederaSvc.submitMessage,
    HederaSvc.deployContract, hnet1, hnet2]

/-- Witness for C10 at the initial state, with second network `previewnet`. -/
theorem stale_handle_after_failed_reconnect_witness :
    HederaSvc.isConnected
        (HederaSvc.connect
          (HederaSvc.connect HederaSvc.initialState "testnet" "0.0.2" "key" true).1.1
          "previewnet" "0.0.3" "key2" true).1.1 = false
    ∧ HederaSvc.createTopic
        (HederaSvc.connect
          (HederaSvc.connect HederaSvc.initialState "testnet" "0.0.2" "key" true).1.1
          "previewnet" "0.0.3" "key2" true).1.1 "memo" (Except.ok "0.0.topic")
      = (Except.ok "0.0.topic", [HederaSvc.HEvent.sdkOp "TopicCreateTransaction"]) := by
  have h := stale_handle_after_failed_reconnect HederaSvc.initialState
    "0.0.2" "key" "previewnet" "0.0.3" "key2" true
    "memo" "0.0.t" "msg" "0x" (Except.ok "0.0.topic") (Except.ok "tx") (Except.ok "0.0.c")
    (by decide) (by decide)
  exact ⟨h.2.2.2.1, h.2.2.2.2.1⟩

/-- C8: `addTransaction` places the new transaction at index 0 and shifts
the existing transactions by one, preserving their relative order. -/
theorem addTransaction_places_at_index_zero :
    ∀ (txs : List TransactionCenter.Transaction) (t : TransactionCenter.Transaction),
      (TransactionCenter.addTransaction txs t)[0]? = some t
      ∧ (∀ i : Nat, (TransactionCenter.addTransaction txs t)[i + 1]? = txs[i]?)
      ∧ TransactionCenter.addTransaction txs t = t :: txs := by
  intro txs t
  refine ⟨?_, ?_, ?_⟩ <;>
    simp [TransactionCenter.addTransaction, TransactionCenter.refresh]

/-- C9: for both webview panel types, `createOrShow` invoked while
`currentPanel` is set reveals the existing panel and creates no new one;
the Audit Dashboard additionally re-renders the existing panel from the new
audit result. -/
theorem createOrShow_singleton_per_panel_type
    (p : Panels.AgentHubPanel) (q : Panels.AuditDashboardPanel)
    (freshId freshId2 : Nat) (res : Panels.AuditResult) :
    (Panels.agentHubCreateOrShow (some p) freshId).1 = some p
    ∧ (∀ i, Panels.PEvent.createWebviewPanel i ∉
        (Panels.agentHubCreateOrShow (some p) freshId).2)
    ∧ Panels.PEvent.reveal p.panelId ∈ (Panels.agentHubCreateOrShow (some p) freshId).2
    ∧ (Panels.auditDashboardCreateOrShow (some q) freshId2 res).1
        = some { panelId := q.panelId, auditResult := res }
    ∧ (∀ i, Panels.PEvent.createWebviewPanel i ∉
        (Panels.auditDashboardCreateOrShow (some q) freshId2 res).2)
    ∧ Panels.PEvent.reveal q.panelId ∈
        (Panels.auditDashboardCreateOrShow (some q) freshId2 res).2 := by
  refine ⟨?_, ?_, ?_, ?_, ?_, ?_⟩ <;>
    simp [Panels.agentHubCreateOrShow, Panels.auditDashboardCreateOrShow]

/-- C7 counterexample: for a failed request whose response body carries a
present but empty `detail` field and whose error message is `boom`, the
interceptor rejects with `boom`, not with the present `detail` value, so
`detail` does not take precedence merely by being present. -/
theorem interceptor_empty_detail_counterexample :
    Api.interceptorReject { responseDetail := some "", message := some "boom" } = "boom"
    ∧ Api.claimReject { responseDetail := some "", message := some "boom" } = ""
    ∧ Api.interceptorReject { responseDetail := some "", message := some "boom" }
        ≠ Api.claimReject { responseDetail := some "", message := some "boom" } := by
  refine ⟨rfl, rfl, ?_⟩
  intro h
  simp [Api.interceptorReject, Api.claimReject, Api.jsOrString] at h

/-- C7 as amended: the rejection value is the response body's `detail`
field when present and non-empty, otherwise the underlying error's message
when present and non-empty, otherwise `Unknown error`. -/
theorem interceptor_reject_amended (e : Api.ApiError) :
    Api.interceptorReject e = Api.claimRejectAmended e := by
  obtain ⟨d, m⟩ := e
  cases d <;> cases m <;>
    simp [Api.interceptorReject, Api.claimRejectAmended, Api.jsOrString]

/-- C5: for every vulnerability list, the root level of `getChildren`
contains exactly one group per severity with at least one vulnerability
(count 1 when present, 0 when absent), that group is labelled
`<Severity> (<count>)`, and for one High plus one Medium vulnerability the
root is exactly the groups `High (1)` and `Medium (1)`. -/
theorem audit_root_exactly_one_group_per_present_severity
    (vulnerabilities : List AuditDash.Vulnerability) (severity : String)
    (hs : severity ∈ AuditDash.severities) :
    ((AuditDash.getChildrenRoot vulnerabilities).countP
        (fun item => decide (item.contextValue
          = some ("severity-" ++ toLowerCase severity)))
      = if (AuditDash.vulnsForSeverity vulnerabilities severity).length = 0 then 0 else 1)
    ∧ (∀ item ∈ AuditDash.getChildrenRoot vulnerabilities,
        item.contextValue = some ("severity-" ++ toLowerCase severity) →
        item = AuditDash.severityGroupItem severity
          (AuditDash.vulnsForSeverity vulnerabilities severity).length)
    ∧ AuditDash.getChildrenRoot
        [{ id := "VULN-001", title := "Reentrancy Vulnerability", description := "d1",
           severity := "High" },
         { id := "VULN-002", title := "Unchecked Return Value", description := "d2",
           severity := "Medium" }]
      = [{ label := "High (1)", description := "1 high severity issues",
           contextValue := some "severity-high" },
         { label := "Medium (1)", description := "1 medium severity issues",
           contextValue := some "severity-medium" }] := by
  simp only [AuditDash.severities, List.mem_cons, List.not_mem_nil, or_false] at hs
  refine ⟨?_, ?_, by decide⟩
  · by_cases hlen : vulnerabilities.length = 0
    · have hnil : vulnerabilities = [] := List.length_eq_zero.mp hlen
      subst hnil
      simp [AuditDash.getChildrenRoot, AuditDash.noVulnerabilitiesItem,
        AuditDash.vulnsForSeverity]
    · rw [AuditDash.getChildrenRoot, if_neg hlen,
        countP_reduceOption_groups vulnerabilities _ AuditDash.severities]
      rcases hs with rfl | rfl | rfl | rfl | rfl <;>
        simp +decide [AuditDash.severities, List.countP_cons]
  · intro item hmem hkey
    by_cases hlen : vulnerabilities.length = 0
    · have hnil : vulnerabilities = [] := List.length_eq_zero.mp hlen
      subst hnil
      rw [AuditDash.getChildrenRoot] at hmem
      simp [AuditDash.noVulnerabilitiesItem] at hmem
      rw [hmem] at hkey
      simp [AuditDash.noVulnerabilitiesItem] at hkey
    · rw [AuditDash.getChildrenRoot, if_neg hlen,
        mem_reduceOption_groups vulnerabilities AuditDash.severities item] at hmem
      obtain ⟨s, hsl, hne, rfl⟩ := hmem
      simp only [AuditDash.severityGroupItem] at hkey
      rw [Option.some.injEq] at hkey
      simp only [AuditDash.severities, List.mem_cons, List.not_mem_nil, or_false] at hsl
      rcases hs with rfl | rfl | rfl | rfl | rfl <;>
        rcases hsl with rfl | rfl | rfl | rfl | rfl <;>
        first
          | rfl
          | exact absurd hkey (by decide)

/-- Witness for C5 at severity High over the two-vulnerability list. -/
theorem audit_root_groups_witness :
    ((AuditDash.getChildrenRoot
        [{ id := "VULN-001", title := "Reentrancy Vulnerability", description := "d1",
           severity := "High" },
         { id := "VULN-002", title := "Unchecked Return Value", description := "d2",
           severity := "Medium" }]).countP
      (fun item => decide (item.contextValue
        = some ("severity-" ++ toLowerCase "High")))
      = if (AuditDash.vulnsForSeverity
          [{ id := "VULN-001", title := "Reentrancy Vulnerability", description := "d1",
             severity := "High" },
           { id := "VULN-002", title := "Unchecked Return Value", description := "d2",
             severity := "Medium" }] "High").length = 0 then 0 else 1)
    ∧ AuditDash.getChildrenRoot
        [{ id := "VULN-001", title := "Reentrancy Vulnerability", description := "d1",
           severity := "High" },
         { id := "VULN-002", title := "Unchecked Return Value", description := "d2",
           severity := "Medium" }]
      = [{ label := "High (1)", description := "1 high severity issues",
           contextValue := some "severity-high" },
         { label := "Medium (1)", description := "1 medium severity issues",
           contextValue := some "severity-medium" }] := by
  have h := audit_root_exactly_one_group_per_present_severity
    [{ id := "VULN-001", title := "Reentrancy Vulnerability", description := "d1",
       severity := "High" },
     { id := "VULN-002", title := "Unchecked Return Value", description := "d2",
       severity := "Medium" }] "High" (by decide)
  exact ⟨h.1, h.2.2⟩

/-- C6: a vulnerability whose location string does not match the pattern
`line[s]? N(-M)?` (case-insensitive) produces no diagnostic and is skipped
silently by `updateDiagnostics`, leaving the other diagnostics unchanged;
an absent location is likewise skipped. -/
theorem unparsable_location_produces_no_diagnostic
    (vuln : SolidityAudit.AuditVuln) (l1 l2 : List SolidityAudit.AuditVuln)
    (h : SolidityAudit.vulnLocationMatch vuln.location = none) :
    SolidityAudit.diagnosticFor vuln = none
    ∧ SolidityAudit.updateDiagnostics (l1 ++ vuln :: l2)
        = SolidityAudit.updateDiagnostics (l1 ++ l2)
    ∧ (∀ v : SolidityAudit.AuditVuln, v.location = none →
        SolidityAudit.diagnosticFor v = none) := by
  have h1 : SolidityAudit.diagnosticFor vuln = none := by
    rw [SolidityAudit.diagnosticFor, h]
  refine ⟨h1, ?_, ?_⟩
  · simp [SolidityAudit.updateDiagnostics, List.filterMap_append,
      List.filterMap_cons, h1]
  · intro v hv
    simp [SolidityAudit.diagnosticFor, SolidityAudit.vulnLocationMatch, hv]

/-- Witness for C6 at the malformed location `entire file`. -/
theorem unparsable_location_produces_no_diagnostic_witness :
    SolidityAudit.diagnosticFor
      { title := "Reentrancy", description := "d", severity := "High",
        location := some "entire file" } = none
    ∧ SolidityAudit.updateDiagnostics
        [{ title := "A", description := "da", severity := "High",
           location := some "line 3" },
         { title := "Reentrancy", description := "d", severity := "High",
           location := some "entire file" }]
      = SolidityAudit.updateDiagnostics
        [{ title := "A", description := "da", severity := "High",
           location := some "line 3" }] := by
  have h := unparsable_location_produces_no_diagnostic
    { title := "Reentrancy", description := "d", severity := "High",
      location := some "entire file" }
    [{ title := "A", description := "da", severity := "High",
       location := some "line 3" }]
    [] (by decide)
  exact ⟨h.1, h.2.1⟩

/-- C3 counterexample: in a concrete successful deployment the success
notification to the UI is emitted strictly before the Transaction record is
appended, so the claimed order (append the Transaction record, then notify
the UI) is false on the code. -/
theorem deploy_success_notification_precedes_append :
    (Deployment.deployContract "Token.sol"
      { fileExists := true, isSolidityFile := true,
        compileResult := Except.ok
          { success := true, error := "",
            abi := [{ type := "constructor", name := "",
                      inputs := [{ name := "owner", type := "address" }],
                      stateMutability := "" }],
            bytecode := "0x6080" },
        answers := [some "0.0.99"], jsonParse := fun _ => none,
        deployResult := Except.ok "0.0.1234", contractName := "Token",
        registerResult := Except.ok "tx1" }).2
    = [Deployment.DEvent.compileCall,
       Deployment.DEvent.promptShown "owner" "address",
       Deployment.DEvent.deployCall,
       Deployment.DEvent.registerCall,
       Deployment.DEvent.infoMessage
         "Contract deployed successfully! Contract ID: 0.0.1234",
       Deployment.DEvent.addTransactionCmd]
    ∧ Deployment.eventBefore
        (Deployment.DEvent.infoMessage
          "Contract deployed successfully! Contract ID: 0.0.1234")
        Deployment.DEvent.addTransactionCmd
        (Deployment.deployContract "Token.sol"
          { fileExists := true, isSolidityFile := true,
            compileResult := Except.ok
              { success := true, error := "",
                abi := [{ type := "constructor", name := "",
                          inputs := [{ name := "owner", type := "address" }],
                          stateMutability := "" }],
                bytecode := "0x6080" },
            answers := [some "0.0.99"], jsonParse := fun _ => none,
            deployResult := Except.ok "0.0.1234", contractName := "Token",
            registerResult := Except.ok "tx1" }).2
    ∧ ¬ Deployment.eventBefore
        Deployment.DEvent.addTransactionCmd
        (Deployment.DEvent.infoMessage
          "Contract deployed successfully! Contract ID: 0.0.1234")
        (Deployment.deployContract "Token.sol"
          { fileExists := true, isSolidityFile := true,
            compileResult := Except.ok
              { success := true, error := "",
                abi := [{ type := "constructor", name := "",
                          inputs := [{ name := "owner", type := "address" }],
                          stateMutability := "" }],
                bytecode := "0x6080" },
            answers := [some "0.0.99"], jsonParse := fun _ => none,
            deployResult := Except.ok "0.0.1234", contractName := "Token",
            registerResult := Except.ok "tx1" }).2 := by
  refine ⟨by decide, by decide, by decide⟩

/-- C3 as amended: `DeploymentUtils.deployContract` runs compile, then the
constructor-parameter prompts, then deploy, then register, then the success
notification, and only then appends the Transaction record (the success
notification precedes the append, unlike the claim's order); every step's
failure aborts all later steps and surfaces the error to the caller, with
an error notification. -/
theorem deployContract_pipeline_order
    (filePath e contractId tx : String) (o : Deployment.DeployOracles)
    (comp : Deployment.CompilationResult)
    (vs : List Deployment.ParamValue) (pevs : List Deployment.DEvent) :
    (∀ ev ∈ (Deployment.getConstructorParams comp.abi o.answers o.jsonParse).2,
       ∃ nm ty, ev = Deployment.DEvent.promptShown nm ty)
    ∧ (o.fileExists = false →
        Deployment.deployContract filePath o
          = (Except.error ("File not found: " ++ filePath),
             [Deployment.DEvent.errorMessage
               ("Failed to deploy contract: " ++ ("File not found: " ++ filePath))]))
    ∧ (o.fileExists = true → o.isSolidityFile = false →
        Deployment.deployContract filePath o
          = (Except.error "Only Solidity files can be deployed",
             [Deployment.DEvent.errorMessage
               "Failed to deploy contract: Only Solidity files can be deployed"]))
    ∧ (o.fileExists = true → o.isSolidityFile = true →
       o.compileResult = Except.error e →
        Deployment.deployContract filePath o
          = (Except.error e,
             [Deployment.DEvent.compileCall,
              Deployment.DEvent.errorMessage ("Failed to deploy contract: " ++ e)]))
    ∧ (o.fileExists = true → o.isSolidityFile = true →
       o.compileResult = Except.ok comp → comp.success = false →
        Deployment.deployContract filePath o
          = (Except.error ("Compilation failed: " ++ comp.error),
             [Deployment.DEvent.compileCall,
              Deployment.DEvent.errorMessage
                ("Failed to deploy contract: " ++ ("Compilation failed: " ++ comp.error))]))
    ∧ (o.fileExists = true → o.isSolidityFile = true →
       o.compileResult = Except.ok comp → comp.success = true →
       Deployment.getConstructorParams comp.abi o.answers o.jsonParse
         = (Except.error e, pevs) →
        Deployment.deployContract filePath o
          = (Except.error e,
             Deployment.DEvent.compileCall :: pevs ++
               [Deployment.DEvent.errorMessage ("Failed to deploy contract: " ++ e)]))
    ∧ (o.fileExists = true → o.isSolidityFile = true →
       o.compileResult = Except.ok comp → comp.success = true →
       Deployment.getConstructorParams comp.abi o.answers o.jsonParse
         = (Except.ok vs, pevs) →
       o.deployResult = Except.error e →
        Deployment.deployContract filePath o
          = (Except.error e,
             Deployment.DEvent.compileCall :: pevs ++
               [Deployment.DEvent.deployCall,
                Deployment.DEvent.errorMessage ("Failed to deploy contract: " ++ e)]))
    ∧ (o.fileExists = true → o.isSolidityFile = true →
       o.compileResult = Except.ok comp → comp.success = true →
       Deployment.getConstructorParams comp.abi o.answers o.jsonParse
         = (Except.ok vs, pevs) →
       o.deployResult = Except.ok contractId →
       o.registerResult = Except.error e →
        Deployment.deployContract filePath o
          = (Except.error e,
             Deployment.DEvent.compileCall :: pevs ++
               [Deployment.DEvent.deployCall, Deployment.DEvent.registerCall,
                Deployment.DEvent.errorMessage ("Failed to deploy contract: " ++ e)]))
    ∧ (o.fileExists = true → o.isSolidityFile = true →
       o.compileResult = Except.ok comp → comp.success = true →
       Deployment.getConstructorParams comp.abi o.answers o.jsonParse
         = (Except.ok vs, pevs) →
       o.deployResult = Except.ok contractId →
       o.registerResult = Except.ok tx →
        Deployment.deployContract filePath o
          = (Except.ok contractId,
             Deployment.DEvent.compileCall :: pevs ++
               [Deployment.DEvent.deployCall, Deployment.DEvent.registerCall,
                Deployment.DEvent.infoMessage
                  ("Contract deployed successfully! Contract ID: " ++ contractId),
                Deployment.DEvent.addTransactionCmd])) := by
  refine ⟨?_, ?_, ?_, ?_, ?_, ?_, ?_, ?_, ?_⟩
  · exact getConstructorParams_events_are_prompts comp.abi o.answers o.jsonParse
  · intro h1
    simp [Deployment.deployContract, Deployment.deployContractTry, h1]
  · intro h1 h2
    simp [Deployment.deployContract, Deployment.deployContractTry, h1, h2]
  · intro h1 h2 h3
    simp [Deployment.deployContract, Deployment.deployContractTry, h1, h2, h3]
  · intro h1 h2 h3 h4
    simp [Deployment.deployContract, Deployment.deployContractTry, h1, h2, h3, h4]
  · intro h1 h2 h3 h4 h5
    simp [Deployment.deployContract, Deployment.deployContractTry, h1, h2, h3, h4, h5]
  · intro h1 h2 h3 h4 h5 h6
    simp [Deployment.deployContract, Deployment.deployContractTry, h1, h2, h3, h4, h5, h6]
  · intro h1 h2 h3 h4 h5 h6 h7
    simp [Deployment.deployContract, Deployment.deployContractTry,
      h1, h2, h3, h4, h5, h6, h7]
  · intro h1 h2 h3 h4 h5 h6 h7
    simp [Deployment.deployContract, Deployment.deployContractTry,
      h1, h2, h3, h4, h5, h6, h7]

/-- Witness for the amended C3 theorem: the full success pipeline at a
concrete oracle. -/
theorem deployContract_pipeline_order_witness :
    Deployment.deployContract "Token.sol"
      { fileExists := true, isSolidityFile := true,
        compileResult := Except.ok
          { success := true, error := "",
            abi := [{ type := "constructor", name := "",
                      inputs := [{ name := "owner", type := "address" }],
                      stateMutability := "" }],
            bytecode := "0x6080" },
        answers := [some "0.0.99"], jsonParse := fun _ => none,
        deployResult := Except.ok "0.0.1234", contractName := "Token",
        registerResult := Except.ok "tx1" }
    = (Except.ok "0.0.1234",
       [Deployment.DEvent.compileCall,
        Deployment.DEvent.promptShown "owner" "address",
        Deployment.DEvent.deployCall,
        Deployment.DEvent.registerCall,
        Deployment.DEvent.infoMessage
          "Contract deployed successfully! Contract ID: 0.0.1234",
        Deployment.DEvent.addTransactionCmd]) := by
  have h := deployContract_pipeline_order "Token.sol" "e" "0.0.1234" "tx1"
    { fileExists := true, isSolidityFile := true,
      compileResult := Except.ok
        { success := true, error := "",
          abi := [{ type := "constructor", name := "",
                    inputs := [{ name := "owner", type := "address" }],
                    stateMutability := "" }],
          bytecode := "0x6080" },
      answers := [some "0.0.99"], jsonParse := fun _ => none,
      deployResult := Except.ok "0.0.1234", contractName := "Token",
      registerResult := Except.ok "tx1" }
    { success := true, error := "",
      abi := [{ type := "constructor", name := "",
                inputs := [{ name := "owner", type := "address" }],
                stateMutability := "" }],
      bytecode := "0x6080" }
    [Deployment.ParamValue.str "0.0.99"]
    [Deployment.DEvent.promptShown "owner" "address"]
  exact h.2.2.2.2.2.2.2.2 rfl rfl rfl rfl rfl rfl rfl

/-- C4 counterexample: dismissing the constructor-parameter prompt makes
the pipeline throw `Deployment cancelled` to the caller and show the error
notification `Failed to deploy contract: Deployment cancelled`, so the
cancellation is not a silent, error-free abort (though it does stop before
the deploy and register calls, which do not appear in the trace). -/
theorem prompt_cancel_not_silent_counterexample :
    Deployment.deployContract "Token.sol"
      { fileExists := true, isSolidityFile := true,
        compileResult := Except.ok
          { success := true, error := "",
            abi := [{ type := "constructor", name := "",
                      inputs := [{ name := "owner", type := "address" }],
                      stateMutability := "" }],
            bytecode := "0x6080" },
        answers := [none], jsonParse := fun _ => none,
        deployResult := Except.ok "0.0.1234", contractName := "Token",
        registerResult := Except.ok "tx1" }
    = (Except.error "Deployment cancelled",
       [Deployment.DEvent.compileCall,
        Deployment.DEvent.promptShown "owner" "address",
        Deployment.DEvent.errorMessage
          "Failed to deploy contract: Deployment cancelled"]) := rfl

/-- C4 as amended: dismissing an input prompt (the prompt returns
undefined) stops the deployment or method-call pipeline before any
subsequent remote or blockchain call, but the cancellation is raised as an
error (`Deployment cancelled` / `Method call cancelled`) that propagates to
the caller and triggers an error notification; it is not a silent abort. -/
theorem prompt_cancel_aborts_before_later_calls :
    (∀ (cancelMsg : String) (jsonParse : String → Option Deployment.ParamValue)
       (input : Deployment.AbiInput) (rest : List Deployment.AbiInput)
       (answers : List (Option String)),
       answers.headD none = none →
       Deployment.promptForInputs cancelMsg jsonParse (input :: rest) answers
         = (Except.error cancelMsg,
            [Deployment.DEvent.promptShown input.name input.type]))
    ∧ (∀ (filePath : String) (o : Deployment.DeployOracles)
         (comp : Deployment.CompilationResult) (pevs : List Deployment.DEvent),
        o.fileExists = true → o.isSolidityFile = true →
        o.compileResult = Except.ok comp → comp.success = true →
        Deployment.getConstructorParams comp.abi o.answers o.jsonParse
          = (Except.error "Deployment cancelled", pevs) →
        Deployment.deployContract filePath o
          = (Except.error "Deployment cancelled",
             Deployment.DEvent.compileCall :: pevs ++
               [Deployment.DEvent.errorMessage
                 "Failed to deploy contract: Deployment cancelled"])
        ∧ Deployment.DEvent.deployCall ∉ (Deployment.deployContract filePath o).2
        ∧ Deployment.DEvent.registerCall ∉ (Deployment.deployContract filePath o).2
        ∧ Deployment.DEvent.addTransactionCmd ∉ (Deployment.deployContract filePath o).2)
    ∧ (∀ (contractId methodName : String) (o : Deployment.CallOracles)
         (contractInfo : Deployment.ContractInfo) (abi : List Deployment.AbiItem)
         (method : Deployment.AbiItem) (pevs : List Deployment.DEvent),
        o.contractInfoResult = Except.ok (some contractInfo) →
        contractInfo.abi = some abi →
        abi.find? (fun item => item.type == "function" && item.name == methodName)
          = some method →
        Deployment.getMethodParams method o.answers o.jsonParse
          = (Except.error "Method call cancelled", pevs) →
        Deployment.callContractMethod contractId methodName o
          = (Except.error "Method call cancelled",
             Deployment.DEvent.contractInfoCall :: pevs ++
               [Deployment.DEvent.errorMessage
                 "Failed to call contract method: Method call cancelled"])
        ∧ Deployment.DEvent.callMethodCall
            ∉ (Deployment.callContractMethod contractId methodName o).2
        ∧ Deployment.DEvent.addTransactionCmd
            ∉ (Deployment.callContractMethod contractId methodName o).2) := by
  refine ⟨?_, ?_, ?_⟩
  · intro cancelMsg jsonParse input rest answers h
    rw [Deployment.promptForInputs, h]
  · intro filePath o comp pevs h1 h2 h3 h4 h5
    have hprompts : ∀ ev ∈ pevs, ∃ nm ty, ev = Deployment.DEvent.promptShown nm ty := by
      intro ev hev
      exact getConstructorParams_events_are_prompts comp.abi o.answers o.jsonParse ev
        (by rw [h5]; exact hev)
    have heq : Deployment.deployContract filePath o
        = (Except.error "Deployment cancelled",
           Deployment.DEvent.compileCall :: pevs ++
             [Deployment.DEvent.errorMessage
               "Failed to deploy contract: Deployment cancelled"]) := by
      simp [Deployment.deployContract, Deployment.deployContractTry, h1, h2, h3, h4, h5]
    refine ⟨heq, ?_, ?_, ?_⟩ <;>
      · rw [heq]
        simp only [List.mem_cons, List.mem_append, List.mem_singleton]
        rintro ((h | h) | h)
        · exact absurd h (by simp)
        · obtain ⟨nm, ty, hEq⟩ := hprompts _ h
          simp at hEq
        · exact absurd h (by simp)
  · intro contractId methodName o contractInfo abi method pevs h1 h2 h3 h4
    have hprompts : ∀ ev ∈ pevs, ∃ nm ty, ev = Deployment.DEvent.promptShown nm ty := by
      intro ev hev
      exact getMethodParams_events_are_prompts method o.answers o.jsonParse ev
        (by rw [h4]; exact hev)
    have heq : Deployment.callContractMethod contractId methodName o
        = (Except.error "Method call cancelled",
           Deployment.DEvent.contractInfoCall :: pevs ++
             [Deployment.DEvent.errorMessage
               "Failed to call contract method: Method call cancelled"]) := by
      simp [Deployment.callContractMethod, Deployment.callContractMethodTry,
        h1, h2, h3, h4]
    refine ⟨heq, ?_, ?_⟩ <;>
      · rw [heq]
        simp only [List.mem_cons, List.mem_append, List.mem_singleton]
        rintro ((h | h) | h)
        · exact absurd h (by simp)
        · obtain ⟨nm, ty, hEq⟩ := hprompts _ h
          simp at hEq
        · exact absurd h (by simp)

/-- Witness for the amended C4 theorem at a concrete dismissed prompt. -/
theorem prompt_cancel_aborts_before_later_calls_witness :
    Deployment.promptForInputs "Deployment cancelled" (fun _ => none)
      [{ name := "owner", type := "address" }] [none]
      = (Except.error "Deployment cancelled",
         [Deployment.DEvent.promptShown "owner" "address"])
    ∧ Deployment.DEvent.deployCall ∉
        (Deployment.deployContract "Token.sol"
          { fileExists := true, isSolidityFile := true,
            compileResult := Except.ok
              { success := true, error := "",
                abi := [{ type := "constructor", name := "",
                          inputs := [{ name := "owner", type := "address" }],
                          stateMutability := "" }],
                bytecode := "0x6080" },
            answers := [none], jsonParse := fun _ => none,
            deployResult := Except.ok "0.0.1234", contractName := "Token",
            registerResult := Except.ok "tx1" }).2 := by
  refine ⟨prompt_cancel_aborts_before_later_calls.1 "Deployment cancelled"
    (fun _ => none) { name := "owner", type := "address" } [] [none] rfl, ?_⟩
  exact (prompt_cancel_aborts_before_later_calls.2.1 "Token.sol"
    { fileExists := true, isSolidityFile := true,
      compileResult := Except.ok
        { success := true, error := "",
          abi := [{ type := "constructor", name := "",
                    inputs := [{ name := "owner", type := "address" }],
                    stateMutability := "" }],
          bytecode := "0x6080" },
      answers := [none], jsonParse := fun _ => none,
      deployResult := Except.ok "0.0.1234", contractName := "Token",
      registerResult := Except.ok "tx1" }
    { success := true, error := "",
      abi := [{ type := "constructor", name := "",
                inputs := [{ name := "owner", type := "address" }],
                stateMutability := "" }],
      bytecode := "0x6080" }
    [Deployment.DEvent.promptShown "owner" "address"]
    rfl rfl rfl rfl rfl).2.1
